import Mathlib

/-!
# Verification of the `ImageModel` image-synthesis orchestrator

A shallow embedding of `lenstronomy/ImSim/image_model.py` (class `ImageModel`),
together with proofs about its orchestration logic: mask/array conversions,
astrometric displacement, point-source rendering guards, pixel-based mode
detection and numerics validation, flux scaling, residual statistics, and the
`update_data` frame effect.

Conventions of the embedding:
* 2D numpy arrays are `List (List ℚ)` (row-major); `util.image2array` is
  `List.join` and `util.array2image` is row chunking.
* Python dictionaries holding known keys are structures with `Option` fields;
  a missing key is `none`, `dict.get(key, default)` is `Option.getD`, and a
  bare `dict[key]` access on a missing key is a raised `KeyError`.
* Raising exceptions is modelled with `Except String`.
* External collaborators (numerics adapter, light models, point-source solver,
  pixel-based solver) are opaque records/functions: only the members the
  orchestrator reads or writes are modelled.
* `np.sqrt` forces the residual statistics to live over `ℝ`; everything else
  is over `ℚ` so that concrete instances evaluate by `decide`/`rfl`.
-/

namespace ImageModel

instance {ε α : Type} [DecidableEq ε] [DecidableEq α] : DecidableEq (Except ε α) :=
  fun x y =>
    match x, y with
    | .ok a, .ok b =>
      if h : a = b then .isTrue (congrArg Except.ok h)
      else .isFalse (fun hh => h (Except.ok.inj hh))
    | .error a, .error b =>
      if h : a = b then .isTrue (congrArg Except.error h)
      else .isFalse (fun hh => h (Except.error.inj hh))
    | .ok _, .error _ => .isFalse (fun hh => Except.noConfusion hh)
    | .error _, .ok _ => .isFalse (fun hh => Except.noConfusion hh)

/-! ## Generic array utilities (`lenstronomy.Util.util`) -/

/-- `util.image2array`: row-major flattening of a 2D array (numpy `reshape(nx*ny)`). -/
def image2array {α : Type} (image : List (List α)) : List α :=
  image.flatten

/-- Row chunking: `np.reshape(array, (nx, ny))`, written with an explicit row
count so the recursion is structural. -/
def chunkRows {α : Type} (nx ny : Nat) (xs : List α) : List (List α) :=
  match nx with
  | 0 => []
  | n + 1 => xs.take ny :: chunkRows n ny (xs.drop ny)

/-- `util.array2image(array, nx, ny)`: reshape a 1D array into `nx` rows of `ny`. -/
def array2image {α : Type} (grid1d : List α) (nx ny : Nat) : List (List α) :=
  chunkRows nx ny grid1d

/-- numpy boolean indexing `array[mask]`: the entries at `true` positions, in order. -/
def maskSelect : List Bool → List ℚ → List ℚ
  | true :: ms, x :: xs => x :: maskSelect ms xs
  | false :: ms, _ :: xs => maskSelect ms xs
  | _, _ => []

/-- numpy boolean fancy assignment `grid1d[mask] = array` applied to a zero
vector: scatter `array` into the `true` positions, zero elsewhere.  numpy
raises when `array` does not hold exactly one value per `true` entry (or when
the flat sizes disagree); that failure is `none`. -/
def maskScatter : List Bool → List ℚ → Option (List ℚ)
  | [], [] => some []
  | [], _ :: _ => none
  | true :: ms, a :: as => (maskScatter ms as).map (a :: ·)
  | true :: _, [] => none
  | false :: ms, as => (maskScatter ms as).map ((0 : ℚ) :: ·)

/-! ## Mask/array conversions (`image2array_masked`, `array_masked2image`) -/

/-- `ImageModel.image2array_masked`: flatten, then keep the unmasked entries. -/
def image2array_masked (mask1d : List Bool) (image : List (List ℚ)) : List ℚ :=
  maskSelect mask1d (image2array image)

/-- `ImageModel.array_masked2image`: scatter the masked 1D values back into a
zero-filled `nx*ny` vector and reshape to `(nx, ny)`. -/
def array_masked2image (nx ny : Nat) (mask1d : List Bool) (array : List ℚ) :
    Option (List (List ℚ)) :=
  (maskScatter mask1d array).map (fun grid1d => array2image grid1d nx ny)

theorem maskSelect_nil (xs : List ℚ) : maskSelect [] xs = [] := by
  cases xs <;> rfl

theorem maskScatter_maskSelect (ms : List Bool) (xs : List ℚ)
    (h : ms.length = xs.length) :
    maskScatter ms (maskSelect ms xs) =
      some (List.zipWith (fun m x => if m then x else 0) ms xs) := by
  induction ms generalizing xs with
  | nil =>
    cases xs with
    | nil => rfl
    | cons x xs => simp at h
  | cons m ms ih =>
    cases xs with
    | nil => simp at h
    | cons x xs =>
      have h' : ms.length = xs.length := by simpa using h
      cases m with
      | true => simp [maskSelect, maskScatter, ih xs h']
      | false => simp [maskSelect, maskScatter, ih xs h']

theorem chunkRows_flatten {α : Type} (ny : Nat) (rows : List (List α))
    (h : ∀ r ∈ rows, r.length = ny) :
    chunkRows rows.length ny rows.flatten = rows := by
  induction rows with
  | nil => rfl
  | cons r rs ih =>
    have hr : r.length = ny := h r (by simp)
    have hrs : ∀ x ∈ rs, x.length = ny := fun x hx => h x (by simp [hx])
    subst hr
    simp only [List.length_cons, List.flatten_cons, chunkRows, List.take_left,
      List.drop_left]
    exact congrArg (r :: ·) (ih hrs)

theorem flatten_zipWith {α β γ : Type} (f : α → β → γ)
    (mss : List (List α)) (xss : List (List β))
    (h : List.Forall₂ (fun (a : List α) (b : List β) => a.length = b.length) mss xss) :
    (List.zipWith (List.zipWith f) mss xss).flatten =
      List.zipWith f mss.flatten xss.flatten := by
  induction h with
  | nil => rfl
  | @cons a b as bs hab _ ih =>
    simp only [List.zipWith_cons_cons, List.flatten_cons, ih]
    rw [List.zipWith_append _ _ _ _ _ hab]

theorem getD_zipWith {α β γ : Type} (f : α → β → γ)
    (as : List α) (bs : List β) (i : Nat) (d : γ) (d₁ : α) (d₂ : β)
    (h1 : i < as.length) (h2 : i < bs.length) :
    (List.zipWith f as bs).getD i d = f (as.getD i d₁) (bs.getD i d₂) := by
  induction as generalizing bs i with
  | nil => simp at h1
  | cons a as ih =>
    cases bs with
    | nil => simp at h2
    | cons b bs =>
      cases i with
      | zero => rfl
      | succ i =>
        simp only [List.zipWith_cons_cons, List.getD_cons_succ]
        exact ih bs i (by simpa using h1) (by simpa using h2)

theorem length_flatten_eq {α β : Type} (mss : List (List α)) (xss : List (List β))
    (h : List.Forall₂ (fun (a : List α) (b : List β) => a.length = b.length) mss xss) :
    mss.flatten.length = xss.flatten.length := by
  induction h with
  | nil => rfl
  | cons hab _ ih => simp [hab, ih]

theorem forall₂_length_of_shape {α β : Type} (nx ny : Nat)
    (mss : List (List α)) (xss : List (List β))
    (hm : mss.length = nx) (hmr : ∀ r ∈ mss, r.length = ny)
    (hx : xss.length = nx) (hxr : ∀ r ∈ xss, r.length = ny) :
    List.Forall₂ (fun (a : List α) (b : List β) => a.length = b.length) mss xss := by
  rw [List.forall₂_iff_get]
  refine ⟨by omega, fun i h₁ h₂ => ?_⟩
  rw [hmr _ (mss.get_mem _ _), hxr _ (xss.get_mem _ _)]

/-- Claim C2: round-tripping a 2D image through `image2array_masked` and then
`array_masked2image` succeeds and reproduces the image exactly at positions
where the likelihood mask is `true`, and yields zero where it is `false`. -/
theorem array_masked2image_image2array_masked (nx ny : Nat)
    (mask : List (List Bool)) (img : List (List ℚ))
    (hmn : mask.length = nx) (hmr : ∀ r ∈ mask, r.length = ny)
    (hin : img.length = nx) (hir : ∀ r ∈ img, r.length = ny) :
    ∃ res,
      array_masked2image nx ny (image2array mask)
        (image2array_masked (image2array mask) img) = some res ∧
      ∀ i j, i < nx → j < ny →
        (res.getD i []).getD j 0 =
          if (mask.getD i []).getD j false then (img.getD i []).getD j 0 else 0 := by
  have hF : List.Forall₂ (fun (a : List Bool) (b : List ℚ) => a.length = b.length)
      mask img := forall₂_length_of_shape nx ny mask img hmn hmr hin hir
  have hlen : (image2array mask).length = (image2array img).length :=
    length_flatten_eq mask img hF
  set f : Bool → ℚ → ℚ := fun m x => if m then x else 0 with hf
  set rows : List (List ℚ) := List.zipWith (List.zipWith f) mask img with hrows
  have hrowslen : rows.length = nx := by
    rw [hrows, List.length_zipWith, hmn, hin, Nat.min_self]
  have hrowsny : ∀ r ∈ rows, r.length = ny := by
    intro r hr
    rw [hrows, List.mem_iff_getElem] at hr
    obtain ⟨i, hi, hr⟩ := hr
    rw [List.getElem_zipWith] at hr
    rw [← hr, List.length_zipWith]
    rw [List.length_zipWith, hmn, hin, Nat.min_self] at hi
    rw [hmr _ (mask.getElem_mem _), hir _ (img.getElem_mem _), Nat.min_self]
  refine ⟨rows, ?_, ?_⟩
  · rw [array_masked2image, image2array_masked,
      maskScatter_maskSelect (image2array mask) (image2array img) hlen]
    simp only [Option.map_some']
    rw [image2array, image2array, ← flatten_zipWith f mask img hF, array2image,
      ← hrows, ← hrowslen, chunkRows_flatten ny rows hrowsny]
  · intro i j hi hj
    have houter : rows.getD i [] =
        List.zipWith f (mask.getD i []) (img.getD i []) := by
      rw [hrows]
      exact getD_zipWith (List.zipWith f) mask img i [] [] [] (by omega) (by omega)
    rw [houter]
    have hmi : i < mask.length := by omega
    have hii : i < img.length := by omega
    exact getD_zipWith f (mask.getD i []) (img.getD i []) j 0 false 0
      (by rw [List.getD_eq_getElem _ _ hmi, hmr _ (mask.getElem_mem _)]; exact hj)
      (by rw [List.getD_eq_getElem _ _ hii, hir _ (img.getElem_mem _)]; exact hj)

/-- Witness for C2 at a concrete 2×2 image and checkerboard mask. -/
theorem array_masked2image_image2array_masked_witness :
    ∃ res,
      array_masked2image 2 2 (image2array [[true, false], [false, true]])
        (image2array_masked (image2array [[true, false], [false, true]])
          [[(1 : ℚ), 2], [3, 4]]) = some res ∧
      ∀ i j, i < 2 → j < 2 →
        (res.getD i []).getD j 0 =
          if (([[true, false], [false, true]] : List (List Bool)).getD i []).getD j false
          then (([[(1 : ℚ), 2], [3, 4]] : List (List ℚ)).getD i []).getD j 0 else 0 :=
  array_masked2image_image2array_masked 2 2 [[true, false], [false, true]]
    [[(1 : ℚ), 2], [3, 4]] (by decide) (by decide) (by decide) (by decide)

/-! ## Astrometric displacement (`_displace_astrometry`) -/

/-- The "special" keyword-argument bag, restricted to the two keys the
displacement routine reads; a missing key is `none`. -/
structure KwargsSpecial where
  delta_x_image : Option (List ℚ)
  delta_y_image : Option (List ℚ)
deriving DecidableEq

/-- `ImageModel._displace_astrometry`.  The code tests only for the
`delta_x_image` key, then reads both keys; the zero-padded offsets are added
elementwise.  `numpy` raises when an offset array is longer than the slice it
is assigned into, and a plain dict access raises `KeyError` when the key is
missing; both are `Except.error`. -/
def displace_astrometry (x_pos y_pos : List ℚ) (kwargs_special : Option KwargsSpecial) :
    Except String (List ℚ × List ℚ) :=
  match kwargs_special with
  | none => .ok (x_pos, y_pos)
  | some ks =>
    match ks.delta_x_image with
    | none => .ok (x_pos, y_pos)
    | some delta_x =>
      match ks.delta_y_image with
      | none => .error "KeyError: 'delta_y_image'"
      | some delta_y =>
        if x_pos.length < delta_x.length then
          .error "ValueError: could not broadcast delta_x_image"
        else if y_pos.length < delta_y.length then
          .error "ValueError: could not broadcast delta_y_image"
        else
          let delta_x_new := delta_x ++ List.replicate (x_pos.length - delta_x.length) 0
          let delta_y_new := delta_y ++ List.replicate (y_pos.length - delta_y.length) 0
          .ok (List.zipWith (· + ·) x_pos delta_x_new,
               List.zipWith (· + ·) y_pos delta_y_new)

/-- Claim C6: when the special bag holds both offset arrays and neither is
longer than its position list, the offsets are padded with zeros to the length
of the position lists and added elementwise. -/
theorem displace_astrometry_pads (x_pos y_pos delta_x delta_y : List ℚ)
    (hx : delta_x.length ≤ x_pos.length) (hy : delta_y.length ≤ y_pos.length) :
    displace_astrometry x_pos y_pos (some ⟨some delta_x, some delta_y⟩) =
      .ok (List.zipWith (· + ·) x_pos
             (delta_x ++ List.replicate (x_pos.length - delta_x.length) 0),
           List.zipWith (· + ·) y_pos
             (delta_y ++ List.replicate (y_pos.length - delta_y.length) 0)) := by
  simp only [displace_astrometry]
  rw [if_neg (by omega), if_neg (by omega)]

/-- Witness for C6: the spec's own example, positions `[1,2,3]` with
`delta_x_image = [0.5]` (and a zero `delta_y_image`), yields `[1.5,2,3]`. -/
theorem displace_astrometry_pads_witness :
    displace_astrometry [1, 2, 3] [4, 5, 6] (some ⟨some [1/2], some [0]⟩) =
      .ok (List.zipWith (· + ·) [1, 2, 3]
             ([1/2] ++ List.replicate (([1, 2, 3] : List ℚ).length - ([1/2] : List ℚ).length) 0),
           List.zipWith (· + ·) [4, 5, 6]
             ([0] ++ List.replicate (([4, 5, 6] : List ℚ).length - ([0] : List ℚ).length) 0)) ∧
    displace_astrometry [1, 2, 3] [4, 5, 6] (some ⟨some [1/2], some [0]⟩) =
      .ok ([3/2, 2, 3], [4, 5, 6]) :=
  ⟨displace_astrometry_pads [1, 2, 3] [4, 5, 6] [1/2] [0] (by decide) (by decide),
   by simp [displace_astrometry]; norm_num⟩

/-- Counterexample to claim C7: a bag holding only `delta_x_image` is not a
no-op — the unconditional read of `delta_y_image` raises a `KeyError`. -/
theorem displace_astrometry_missing_delta_y_counterexample :
    displace_astrometry [1] [2] (some ⟨some [1/2], none⟩) ≠ .ok ([1], [2]) ∧
    displace_astrometry [1] [2] (some ⟨some [1/2], none⟩) =
      .error "KeyError: 'delta_y_image'" := by
  constructor
  · decide
  · rfl

/-- Claim C7 (amended): the positions are returned unchanged whenever the
special bag is absent or lacks the `delta_x_image` key (in particular when only
`delta_y_image` is present); when `delta_x_image` is present but
`delta_y_image` is absent the routine raises a key error instead. -/
theorem displace_astrometry_noop (x_pos y_pos : List ℚ) (ks : Option KwargsSpecial)
    (h : ks = none ∨ ∃ k, ks = some k ∧ k.delta_x_image = none) :
    displace_astrometry x_pos y_pos ks = .ok (x_pos, y_pos) := by
  rcases h with h | ⟨k, hk, hdx⟩
  · rw [h, displace_astrometry]
  · rw [hk, displace_astrometry, hdx]

/-- Witness for C7 (amended): a bag holding only `delta_y_image` is ignored. -/
theorem displace_astrometry_noop_witness :
    displace_astrometry [1, 2] [3, 4] (some ⟨none, some [7]⟩) = .ok ([1, 2], [3, 4]) :=
  displace_astrometry_noop [1, 2] [3, 4] (some ⟨none, some [7]⟩)
    (Or.inr ⟨⟨none, some [7]⟩, rfl, rfl⟩)

/-! ## Analytical source surface brightness
(`_source_surface_brightness_analytical` and its `_numerics` helper)

All collaborator calls are snapshotted for one invocation: the de-lensed
surface brightness, the joint lensed flux, the extinction factor and the
flattened primary beam are the 1D arrays those collaborators return at the
evaluation coordinates, and `re_size_convolve` is the numerics adapter's
resize+convolution map from the 1D evaluation array to the 2D image. -/

structure AnalyticalState where
  /-- `SourceModel.surface_brightness(ra_grid, dec_grid, kwargs_source, k)` -/
  source_light_delensed : List ℚ
  /-- `source_mapping.image_flux_joint(ra_grid, dec_grid, ...)` -/
  image_flux_joint : List ℚ
  /-- `self._extinction.extinction(ra_grid, dec_grid, ...)` -/
  extinction : List ℚ
  /-- `self._pb_1d` (flattened primary beam, `None` when absent) -/
  pb_1d : Option (List ℚ)
  /-- `self._flux_scaling` -/
  flux_scaling : ℚ
  /-- `self.ImageNumerics.re_size_convolve(array, unconvolved)` -/
  re_size_convolve : List ℚ → Bool → List (List ℚ)

/-- Lines 305–328 of `_source_surface_brightness_analytical_numerics`: the
extinction- and primary-beam-weighted surface brightness, before the final
flux-scaling multiplication. -/
def weighted_surface_brightness (s : AnalyticalState) (de_lensed : Bool) : List ℚ :=
  let source_light :=
    if de_lensed then s.source_light_delensed
    else List.zipWith (· * ·) s.image_flux_joint s.extinction
  match s.pb_1d with
  | some pb => List.zipWith (· * ·) source_light pb
  | none => source_light

/-- `ImageModel._source_surface_brightness_analytical_numerics`: the weighted
surface brightness times `self._flux_scaling` (the scaling is applied here,
before any resize/convolution). -/
def source_surface_brightness_analytical_numerics (s : AnalyticalState)
    (de_lensed : Bool) : List ℚ :=
  (weighted_surface_brightness s de_lensed).map (· * s.flux_scaling)

/-- `ImageModel._source_surface_brightness_analytical`: feed the `_numerics`
output through `re_size_convolve`. -/
def source_surface_brightness_analytical (s : AnalyticalState)
    (unconvolved de_lensed : Bool) : List (List ℚ) :=
  s.re_size_convolve (source_surface_brightness_analytical_numerics s de_lensed)
    unconvolved

/-- A concrete state with a non-homogeneous resize/convolve map (elementwise
squaring) and flux scaling 2, separating "scale before" from "scale after". -/
def squaringAdapterState : AnalyticalState where
  source_light_delensed := [1]
  image_flux_joint := [1]
  extinction := [1]
  pb_1d := none
  flux_scaling := 2
  re_size_convolve := fun xs _ => [xs.map (fun x => x * x)]

/-- Counterexample to claim C3: the code multiplies by the flux-scaling factor
before `re_size_convolve`, so for an adapter that does not commute with scalar
multiplication the result differs from "resize/convolve, then scale":
the code yields `[[4]]` where the claimed order yields `[[2]]`. -/
theorem source_flux_scaling_order_counterexample :
    source_surface_brightness_analytical squaringAdapterState false true ≠
      (squaringAdapterState.re_size_convolve
          (weighted_surface_brightness squaringAdapterState true) false).map
        (List.map (· * squaringAdapterState.flux_scaling)) ∧
    source_surface_brightness_analytical squaringAdapterState false true = [[4]] := by
  constructor
  · intro h
    have h4 : source_surface_brightness_analytical squaringAdapterState false true
        = [[4]] := by
      simp [source_surface_brightness_analytical,
        source_surface_brightness_analytical_numerics, weighted_surface_brightness,
        squaringAdapterState]
      norm_num
    have h2 : (squaringAdapterState.re_size_convolve
          (weighted_surface_brightness squaringAdapterState true) false).map
        (List.map (· * squaringAdapterState.flux_scaling)) = [[2]] := by
      simp [weighted_surface_brightness, squaringAdapterState]
    rw [h4, h2] at h
    simp at h
  · simp [source_surface_brightness_analytical,
      source_surface_brightness_analytical_numerics, weighted_surface_brightness,
      squaringAdapterState]
    norm_num

/-- Claim C3 (amended): the flux-scaling factor is applied to the weighted
surface brightness *before* the resize/convolve step; the claimed
"resize/convolve, then scale" form holds exactly when the numerics adapter's
`re_size_convolve` commutes with scalar multiplication by the flux factor. -/
theorem source_surface_brightness_flux_scaling (s : AnalyticalState)
    (unconvolved de_lensed : Bool)
    (hlin : ∀ arr u, s.re_size_convolve (arr.map (· * s.flux_scaling)) u =
      (s.re_size_convolve arr u).map (List.map (· * s.flux_scaling))) :
    source_surface_brightness_analytical s unconvolved de_lensed =
      (s.re_size_convolve (weighted_surface_brightness s de_lensed) unconvolved).map
        (List.map (· * s.flux_scaling)) := by
  rw [source_surface_brightness_analytical,
    source_surface_brightness_analytical_numerics, hlin]

/-- A concrete state whose resize/convolve map is homogeneous (the identity
reshaped to one row). -/
def identityAdapterState : AnalyticalState where
  source_light_delensed := [1, 2]
  image_flux_joint := [1, 2]
  extinction := [1, 1]
  pb_1d := none
  flux_scaling := 3
  re_size_convolve := fun xs _ => [xs]

/-- Witness for C3 (amended) at a homogeneous adapter. -/
theorem source_surface_brightness_flux_scaling_witness :
    source_surface_brightness_analytical identityAdapterState false true =
      (identityAdapterState.re_size_convolve
          (weighted_surface_brightness identityAdapterState true) false).map
        (List.map (· * identityAdapterState.flux_scaling)) :=
  source_surface_brightness_flux_scaling identityAdapterState false true
    (fun _ _ => rfl)

/-! ## Point-source rendering (`point_source`) -/

/-- `np.zeros(num_pixel_axes)`. -/
def zeros2d (nx ny : Nat) : List (List ℚ) :=
  List.replicate nx (List.replicate ny 0)

/-- Elementwise `+=` of two 2D arrays of the same shape. -/
def add2d (a b : List (List ℚ)) : List (List ℚ) :=
  List.zipWith (List.zipWith (· + ·)) a b

/-- Whether a fallible computation raised. -/
def isError {α : Type} : Except String α → Bool
  | .error _ => true
  | .ok _ => false

/-- One-invocation snapshot of the state `ImageModel.point_source` reads. -/
structure PointSourceState where
  /-- `self.Data.num_pixel_axes`, first axis -/
  nx : Nat
  /-- `self.Data.num_pixel_axes`, second axis -/
  ny : Nat
  /-- `self.PointSource is None` -/
  pointSource_isNone : Bool
  /-- `self.PointSource.point_source_list(kwargs_ps, kwargs_lens, k)`, a call
  into the point-source solver which may itself raise -/
  point_source_list : Except String (List ℚ × List ℚ × List ℚ)
  /-- `self._pb` (primary beam) -/
  pb : Option (List (List ℚ))
  /-- the `kwargs_special` argument -/
  kwargs_special : Option KwargsSpecial
  /-- `self.ImageNumerics.point_source_rendering(ra_pos, dec_pos, amp)` -/
  point_source_rendering : List ℚ → List ℚ → List ℚ → List (List ℚ)
  /-- `self._flux_scaling` -/
  flux_scaling : ℚ

/-- `ImageModel.point_source`: early all-zero return for unconvolved output or
a missing collaborator, the primary-beam guard (`raise Warning(...)` — a real
raise, `Warning` being an exception class), astrometric displacement, PSF
splatting, and the final flux scaling. -/
def point_source (s : PointSourceState) (unconvolved : Bool) :
    Except String (List (List ℚ)) :=
  let point_source_image := zeros2d s.nx s.ny
  if unconvolved || s.pointSource_isNone then .ok point_source_image
  else
    match s.point_source_list with
    | .error e => .error e
    | .ok (ra_pos, dec_pos, amp) =>
      if ra_pos.length ≠ 0 ∧ s.pb.isSome then
        .error "Warning: Antenna primary beam does not apply to point sources in ImageModel!"
      else
        match displace_astrometry ra_pos dec_pos s.kwargs_special with
        | .error e => .error e
        | .ok (ra_pos', dec_pos') =>
          .ok ((add2d point_source_image
                  (s.point_source_rendering ra_pos' dec_pos' amp)).map
                (List.map (· * s.flux_scaling)))

/-- Claim C4: `point_source` with unconvolved output returns the all-zero image
of the data's pixel shape without consulting the position solver and without
raising; and (for a configured point-source collaborator whose solver and
astrometric displacement succeed) it raises exactly when unconvolved output is
not requested, a primary beam is present, and the solved position list is
non-empty. -/
theorem point_source_guard (s : PointSourceState) :
    (point_source s true = .ok (zeros2d s.nx s.ny)) ∧
    (∀ ra_pos dec_pos amp, s.pointSource_isNone = false →
      s.point_source_list = .ok (ra_pos, dec_pos, amp) →
      isError (displace_astrometry ra_pos dec_pos s.kwargs_special) = false →
      (isError (point_source s false) = true ↔ (s.pb.isSome = true ∧ ra_pos ≠ []))) := by
  constructor
  · rw [point_source]
    simp
  · intro ra_pos dec_pos amp hnone hlist hdisp
    rw [point_source]
    simp only [hnone, Bool.or_false, Bool.false_eq_true, if_false, hlist]
    by_cases hguard : ra_pos.length ≠ 0 ∧ s.pb.isSome
    · rw [if_pos hguard]
      simp only [isError, true_iff]
      exact ⟨hguard.2, fun h => hguard.1 (by simp [h])⟩
    · rw [if_neg hguard]
      rcases hd : displace_astrometry ra_pos dec_pos s.kwargs_special with e | ⟨ra', dec'⟩
      · rw [hd] at hdisp; simp [isError] at hdisp
      · simp only [isError, Bool.false_eq_true, false_iff]
        intro ⟨hpb, hra⟩
        exact hguard ⟨fun h0 => hra (List.length_eq_zero.mp h0), hpb⟩

/-- A concrete point-source state: a primary beam is present and the solver
returns one image position. -/
def beamedPointSourceState : PointSourceState where
  nx := 2
  ny := 2
  pointSource_isNone := false
  point_source_list := .ok ([1], [1], [5])
  pb := some [[1, 1], [1, 1]]
  kwargs_special := none
  point_source_rendering := fun _ _ _ => [[0, 0], [0, 0]]
  flux_scaling := 1

/-- Witness for C4: at the beamed state, unconvolved output is the zero image,
and convolved output raises. -/
theorem point_source_guard_witness :
    point_source beamedPointSourceState true = .ok (zeros2d 2 2) ∧
    isError (point_source beamedPointSourceState false) = true :=
  ⟨(point_source_guard beamedPointSourceState).1,
   ((point_source_guard beamedPointSourceState).2 [1] [1] [5] rfl rfl rfl).mpr
     ⟨rfl, by decide⟩⟩

/-! ## Construction-time collaborators and configuration -/

/-- `PSF` collaborator: the members `ImageModel` reads or writes.
`pixel_size` is `none` until `set_pixel_size` is called. -/
structure PSFC where
  psf_type : String
  psf_variance_map_bool : Bool
  pixel_size : Option ℚ
deriving DecidableEq

/-- `PSF.set_pixel_size(deltaPix)`. -/
def set_pixel_size (psf : PSFC) (deltaPix : ℚ) : PSFC :=
  { psf with pixel_size := some deltaPix }

/-- `Data`/pixel-grid collaborator: the members `ImageModel` reads.
`flux_scaling` is `none` when the attribute is absent (`hasattr` fails). -/
structure DataC where
  nx : Nat
  ny : Nat
  pixel_width : ℚ
  center : ℚ × ℚ
  width : ℚ × ℚ
  data : List (List ℚ)
  primary_beam : Option (List (List ℚ))
  flux_scaling : Option ℚ
deriving DecidableEq

/-- `kwargs_numerics`: the keys the orchestrator reads, each optional. -/
structure KwargsNumerics where
  supersampling_convolution : Option Bool
  supersampling_factor : Option Nat
  compute_mode : Option String
deriving DecidableEq

/-- `kwargs_pixelbased`: the single key the orchestrator pops. -/
structure KwargsPixelbased where
  supersampling_factor_source : Option Nat
deriving DecidableEq

/-- `NumericsSubFrame(pixel_grid=..., psf=..., **kwargs_numerics)`: an external
adapter, modelled by the arguments it is constructed from (`_PixelGrid` is the
`pixel_grid` field). -/
structure NumericsSubFrame where
  pixel_grid : DataC
  psf : PSFC
  kwargs : KwargsNumerics
deriving DecidableEq

/-- `LensModel` collaborator (constructible from an empty profile list). -/
structure LensC where
  lens_model_list : List String
deriving DecidableEq

/-- `LightModel` collaborator: only `profile_type_list` is read. -/
structure LightModelC where
  profile_type_list : List String
deriving DecidableEq

/-- `PointSource` collaborator: the members the constructor reads or writes
(`update_search_window` touches only solver-internal state, not modelled). -/
structure PointSourceC where
  point_source_type_list : List String
  lens_model : Option LensC
deriving DecidableEq

/-- `DifferentialExtinction` collaborator. -/
structure ExtinctionC where
  optical_depth_model : List String
deriving DecidableEq

/-- `Image2SourceMapping(lens_model=..., source_model=...)`. -/
structure MappingC where
  lens_model : LensC
  source_model : LightModelC
deriving DecidableEq

/-- The SLITronomy solver adapter: only the likelihood mask the orchestrator
pushes into it (`set_likelihood_mask`) is modelled. -/
structure PixelSolverC where
  likelihood_mask : Option (List (List Bool))
deriving DecidableEq

/-! ## Pixel-based numerics validation (`_setup_pixelbased_source_numerics`) -/

/-- `ImageModel._setup_pixelbased_source_numerics`: validate the PSF type, the
compute mode and the supersampled-convolution setting, then build the
source-plane numerics adapter with its own supersampling factor. -/
def setup_pixelbased_source_numerics (Data : DataC) (PSF : PSFC)
    (kwargs_numerics : KwargsNumerics) (kwargs_pixelbased : KwargsPixelbased) :
    Except String NumericsSubFrame :=
  let psf_type := PSF.psf_type
  let supersampling_convolution := kwargs_numerics.supersampling_convolution.getD false
  let supersampling_factor := kwargs_numerics.supersampling_factor.getD 1
  let compute_mode := kwargs_numerics.compute_mode.getD "regular"
  if ¬(psf_type = "PIXEL" ∨ psf_type = "NONE") then
    .error "Only convolution using a pixelated kernel is supported for pixel-based modelling"
  else if compute_mode ≠ "regular" then
    .error "Only regular coordinate grid is supported for pixel-based modelling"
  else if supersampling_convolution = true ∧ supersampling_factor > 1 then
    .error "Only non-supersampled convolution is supported for pixel-based modelling"
  else
    let supersampling_factor_source := kwargs_pixelbased.supersampling_factor_source.getD 1
    let kwargs_numerics_source :=
      { kwargs_numerics with
          supersampling_factor := some supersampling_factor_source,
          compute_mode := some "regular" }
    .ok { pixel_grid := Data, psf := PSF, kwargs := kwargs_numerics_source }

/-- Claim C5: the pixel-based numerics setup raises exactly when the PSF type
is neither `"PIXEL"` nor `"NONE"`, or the compute mode is not `"regular"`, or
supersampled convolution (the supersampling-convolution flag with a
supersampling factor above 1) is requested; otherwise it succeeds in building
the source-plane numerics adapter. -/
theorem setup_pixelbased_source_numerics_spec (Data : DataC) (PSF : PSFC)
    (kn : KwargsNumerics) (kp : KwargsPixelbased) :
    (isError (setup_pixelbased_source_numerics Data PSF kn kp) = true ↔
      (¬(PSF.psf_type = "PIXEL" ∨ PSF.psf_type = "NONE") ∨
        kn.compute_mode.getD "regular" ≠ "regular" ∨
        (kn.supersampling_convolution.getD false = true ∧
          1 < kn.supersampling_factor.getD 1))) ∧
    (¬(¬(PSF.psf_type = "PIXEL" ∨ PSF.psf_type = "NONE") ∨
        kn.compute_mode.getD "regular" ≠ "regular" ∨
        (kn.supersampling_convolution.getD false = true ∧
          1 < kn.supersampling_factor.getD 1)) →
      ∃ sn, setup_pixelbased_source_numerics Data PSF kn kp = .ok sn) := by
  rw [setup_pixelbased_source_numerics]
  by_cases h1 : ¬(PSF.psf_type = "PIXEL" ∨ PSF.psf_type = "NONE")
  · rw [if_pos h1]
    simp [isError, h1]
  · rw [if_neg h1]
    by_cases h2 : kn.compute_mode.getD "regular" ≠ "regular"
    · rw [if_pos h2]
      simp [isError, h1, h2]
    · rw [if_neg h2]
      by_cases h3 : kn.supersampling_convolution.getD false = true ∧
          1 < kn.supersampling_factor.getD 1
      · rw [if_pos h3]
        simp [isError, h1, h2, h3]
      · rw [if_neg h3]
        simp [isError, h1, h2, h3]

/-- Witness for C5: a Gaussian PSF type under pixel-based mode raises, while a
pixelated kernel on the regular grid succeeds. -/
theorem setup_pixelbased_source_numerics_spec_witness :
    isError (setup_pixelbased_source_numerics
      { nx := 1, ny := 1, pixel_width := 1, center := (0, 0), width := (1, 1),
        data := [[0]], primary_beam := none, flux_scaling := none }
      { psf_type := "GAUSSIAN", psf_variance_map_bool := false, pixel_size := none }
      ⟨none, none, none⟩ ⟨none⟩) = true ∧
    ∃ sn, setup_pixelbased_source_numerics
      { nx := 1, ny := 1, pixel_width := 1, center := (0, 0), width := (1, 1),
        data := [[0]], primary_beam := none, flux_scaling := none }
      { psf_type := "PIXEL", psf_variance_map_bool := false, pixel_size := none }
      ⟨none, none, none⟩ ⟨none⟩ = .ok sn :=
  ⟨(setup_pixelbased_source_numerics_spec _ _ _ _).1.mpr (by decide),
   (setup_pixelbased_source_numerics_spec _ _ _ _).2 (by decide)⟩

/-! ## Pixel-based mode detection (`_detect_pixelbased_models`) -/

/-- `ImageModel._detect_pixelbased_models`: `True` when a pixel-based-only
source profile is present (which must then be the sole profile, else a
`ValueError` is raised), `False` otherwise. -/
def detect_pixelbased_models (SourceModel : LightModelC) : Except String Bool :=
  let source_model_list := SourceModel.profile_type_list
  if "SLIT_STARLETS" ∈ source_model_list ∨ "SLIT_STARLETS_GEN2" ∈ source_model_list then
    if 1 < source_model_list.length then
      .error "'SLIT_STARLETS' or 'SLIT_STARLETS_GEN2' must be the only source model list for pixel-based modelling"
    else .ok true
  else .ok false

theorem detect_pixelbased_models_spec (L : LightModelC) :
    (detect_pixelbased_models L = .ok true ↔
      ∃ p, (p = "SLIT_STARLETS" ∨ p = "SLIT_STARLETS_GEN2") ∧
        L.profile_type_list = [p]) ∧
    (detect_pixelbased_models L = .ok false ↔
      ¬("SLIT_STARLETS" ∈ L.profile_type_list ∨
        "SLIT_STARLETS_GEN2" ∈ L.profile_type_list)) ∧
    (isError (detect_pixelbased_models L) = true ↔
      (("SLIT_STARLETS" ∈ L.profile_type_list ∨
        "SLIT_STARLETS_GEN2" ∈ L.profile_type_list) ∧
        1 < L.profile_type_list.length)) := by
  rw [detect_pixelbased_models]
  by_cases hmem : "SLIT_STARLETS" ∈ L.profile_type_list ∨
      "SLIT_STARLETS_GEN2" ∈ L.profile_type_list
  · rw [if_pos hmem]
    by_cases hlen : 1 < L.profile_type_list.length
    · rw [if_pos hlen]
      refine ⟨?_, ?_, ?_⟩
      · constructor
        · intro h; simp at h
        · rintro ⟨p, _, hp⟩
          rw [hp] at hlen; simp at hlen
      · constructor
        · intro h; simp at h
        · intro h; exact absurd hmem h
      · simp [isError, hmem, hlen]
    · rw [if_neg hlen]
      have hpos : 0 < L.profile_type_list.length := by
        rcases hmem with h | h <;> exact List.length_pos_of_mem h
      have hone : L.profile_type_list.length = 1 := by omega
      obtain ⟨p, hp⟩ := List.length_eq_one.mp hone
      have hfam : p = "SLIT_STARLETS" ∨ p = "SLIT_STARLETS_GEN2" := by
        rw [hp] at hmem
        rcases hmem with h | h
        · exact Or.inl (List.mem_singleton.mp h).symm
        · exact Or.inr (List.mem_singleton.mp h).symm
      refine ⟨?_, ?_, ?_⟩
      · exact ⟨fun _ => ⟨p, hfam, hp⟩, fun _ => rfl⟩
      · constructor
        · intro h; simp at h
        · intro h; exact absurd hmem h
      · simp [isError, hlen]
  · rw [if_neg hmem]
    refine ⟨?_, ?_, ?_⟩
    · constructor
      · intro h; simp at h
      · rintro ⟨p, hfam, hp⟩
        exfalso; apply hmem; rw [hp]
        rcases hfam with h | h <;> simp [h]
    · exact ⟨fun _ => hmem, fun _ => rfl⟩
    · simp [isError, hmem]

/-! ## The orchestrator state and its constructor (`ImageModel.__init__`) -/

/-- The attributes `ImageModel.__init__` stores on `self`. -/
structure OrchState where
  PSF : PSFC
  Data : DataC
  flux_scaling : ℚ
  ImageNumerics : NumericsSubFrame
  LensModel : LensC
  PointSource : PointSourceC
  psf_error_map : Bool
  likelihood_mask : List (List Bool)
  mask1d : List Bool
  SourceModel : LightModelC
  LensLightModel : LightModelC
  kwargs_numerics : KwargsNumerics
  extinction : ExtinctionC
  pixelbased_bool : Bool
  SourceNumerics : Option NumericsSubFrame
  PixelSolver : Option PixelSolverC
  source_mapping : Option MappingC
  pb : Option (List (List ℚ))
  pb_1d : Option (List ℚ)
  psf_error_map_bool_list : List Bool
deriving DecidableEq

/-- `ImageModel.__init__`: bind the PSF pixel size to the data grid, build the
image-plane numerics adapter, default the absent collaborators, normalize and
flatten the likelihood mask, detect pixel-based mode (which may raise), then
either validate/build the source-plane numerics and the pixel-based solver or
create the analytical source-to-image mapping, and capture the primary beam.
(`update_search_window` configures only point-source-solver-internal state and
is not modelled.) -/
def init (data_class : DataC) (psf_class : PSFC)
    (lens_model_class : Option LensC) (source_model_class : Option LightModelC)
    (lens_light_model_class : Option LightModelC)
    (point_source_class : Option PointSourceC)
    (extinction_class : Option ExtinctionC)
    (kwargs_numerics : Option KwargsNumerics)
    (likelihood_mask : Option (List (List Bool)))
    (psf_error_map_bool_list : Option (List Bool))
    (kwargs_pixelbased : Option KwargsPixelbased) : Except String OrchState :=
  let PSF := set_pixel_size psf_class data_class.pixel_width
  let flux_scaling := data_class.flux_scaling.getD 1
  let kn := kwargs_numerics.getD ⟨none, none, none⟩
  let ImageNumerics : NumericsSubFrame :=
    { pixel_grid := data_class, psf := PSF, kwargs := kn }
  let LensModel := lens_model_class.getD { lens_model_list := [] }
  let PointSource0 :=
    point_source_class.getD { point_source_type_list := [], lens_model := none }
  let PointSource := if PointSource0.lens_model.isNone
    then { PointSource0 with lens_model := some LensModel } else PointSource0
  let psf_error_map := PSF.psf_variance_map_bool
  let mask := likelihood_mask.getD
    (List.replicate data_class.nx (List.replicate data_class.ny true))
  let mask1d := image2array mask
  let SourceModel := source_model_class.getD { profile_type_list := [] }
  let LensLightModel := lens_light_model_class.getD { profile_type_list := [] }
  let extinction := extinction_class.getD { optical_depth_model := [] }
  let kp := kwargs_pixelbased.getD { supersampling_factor_source := none }
  match detect_pixelbased_models SourceModel with
  | .error e => .error e
  | .ok pixelbased_bool =>
    match (match pixelbased_bool with
      | true =>
        match setup_pixelbased_source_numerics data_class PSF kn kp with
        | .error e => .error e
        | .ok sn =>
          .ok (some sn, some { likelihood_mask := some mask }, (none : Option MappingC))
      | false =>
        .ok (none, none,
          some { lens_model := LensModel, source_model := SourceModel }) :
        Except String (Option NumericsSubFrame × Option PixelSolverC × Option MappingC)) with
    | .error e => .error e
    | .ok (SourceNumerics, PixelSolver, source_mapping) =>
      .ok { PSF := PSF, Data := data_class, flux_scaling := flux_scaling,
            ImageNumerics := ImageNumerics, LensModel := LensModel,
            PointSource := PointSource, psf_error_map := psf_error_map,
            likelihood_mask := mask, mask1d := mask1d, SourceModel := SourceModel,
            LensLightModel := LensLightModel, kwargs_numerics := kn,
            extinction := extinction, pixelbased_bool := pixelbased_bool,
            SourceNumerics := SourceNumerics, PixelSolver := PixelSolver,
            source_mapping := source_mapping, pb := data_class.primary_beam,
            pb_1d := data_class.primary_beam.map image2array,
            psf_error_map_bool_list := psf_error_map_bool_list.getD
              (List.replicate PointSource.point_source_type_list.length true) }

/-- `ImageModel.update_data`: replace `self.Data` and the numerics adapter's
`_PixelGrid` reference; nothing else is touched. -/
def update_data (s : OrchState) (data_class : DataC) : OrchState :=
  { s with Data := data_class,
           ImageNumerics := { s.ImageNumerics with pixel_grid := data_class } }

/-- Inversion of a successful construction: the construction-derived fields of
the resulting state, expressed in terms of the constructor arguments. -/
theorem init_ok_fields (data_class : DataC) (psf_class : PSFC)
    (lm : Option LensC) (sm : Option LightModelC) (llm : Option LightModelC)
    (ps : Option PointSourceC) (ec : Option ExtinctionC)
    (kn : Option KwargsNumerics) (mask : Option (List (List Bool)))
    (bl : Option (List Bool)) (kp : Option KwargsPixelbased) (s : OrchState)
    (h : init data_class psf_class lm sm llm ps ec kn mask bl kp = .ok s) :
    s.PSF = set_pixel_size psf_class data_class.pixel_width ∧
    s.Data = data_class ∧
    s.flux_scaling = data_class.flux_scaling.getD 1 ∧
    s.ImageNumerics = (⟨data_class, set_pixel_size psf_class data_class.pixel_width,
      kn.getD ⟨none, none, none⟩⟩ : NumericsSubFrame) ∧
    s.likelihood_mask = mask.getD
      (List.replicate data_class.nx (List.replicate data_class.ny true)) ∧
    s.mask1d = image2array (mask.getD
      (List.replicate data_class.nx (List.replicate data_class.ny true))) ∧
    detect_pixelbased_models (sm.getD { profile_type_list := [] }) =
      .ok s.pixelbased_bool := by
  rcases hd : detect_pixelbased_models (sm.getD { profile_type_list := [] })
    with e | b
  · simp only [init, hd] at h
    exact Except.noConfusion h
  · cases b with
    | false =>
      simp only [init, hd] at h
      rw [Except.ok.injEq] at h
      subst h
      refine ⟨rfl, rfl, rfl, rfl, rfl, rfl, ?_⟩
      simp [hd]
    | true =>
      rcases hsu : setup_pixelbased_source_numerics data_class
          (set_pixel_size psf_class data_class.pixel_width)
          (kn.getD ⟨none, none, none⟩) (kp.getD ⟨none⟩) with e | sn
      · simp only [init, hd, hsu] at h
        exact Except.noConfusion h
      · simp only [init, hd, hsu] at h
        rw [Except.ok.injEq] at h
        subst h
        refine ⟨rfl, rfl, rfl, rfl, rfl, rfl, ?_⟩
        simp [hd]

/-- Claim C1: construction raises for any source-profile list holding a
pixel-based-only profile (`"SLIT_STARLETS"`/`"SLIT_STARLETS_GEN2"`) together
with at least one other profile; it succeeds with the pixel-based flag `false`
for any list holding no such profile; and on success the flag is `true`
exactly when the list is one single pixel-based-only profile. -/
theorem init_pixelbased_mode_detection (data_class : DataC) (psf_class : PSFC)
    (lm : Option LensC) (sm : Option LightModelC) (llm : Option LightModelC)
    (ps : Option PointSourceC) (ec : Option ExtinctionC)
    (kn : Option KwargsNumerics) (mask : Option (List (List Bool)))
    (bl : Option (List Bool)) (kp : Option KwargsPixelbased) :
    ((("SLIT_STARLETS" ∈ (sm.getD { profile_type_list := [] }).profile_type_list ∨
        "SLIT_STARLETS_GEN2" ∈ (sm.getD { profile_type_list := [] }).profile_type_list) ∧
        1 < (sm.getD { profile_type_list := [] }).profile_type_list.length) →
      isError (init data_class psf_class lm sm llm ps ec kn mask bl kp) = true) ∧
    ((¬("SLIT_STARLETS" ∈ (sm.getD { profile_type_list := [] }).profile_type_list ∨
        "SLIT_STARLETS_GEN2" ∈ (sm.getD { profile_type_list := [] }).profile_type_list)) →
      ∃ s, init data_class psf_class lm sm llm ps ec kn mask bl kp = .ok s ∧
        s.pixelbased_bool = false) ∧
    (∀ s, init data_class psf_class lm sm llm ps ec kn mask bl kp = .ok s →
      (s.pixelbased_bool = true ↔
        ∃ p, (p = "SLIT_STARLETS" ∨ p = "SLIT_STARLETS_GEN2") ∧
          (sm.getD { profile_type_list := [] }).profile_type_list = [p])) := by
  refine ⟨?_, ?_, ?_⟩
  · intro ⟨hmem, hlen⟩
    have herr : isError (detect_pixelbased_models
        (sm.getD { profile_type_list := [] })) = true :=
      (detect_pixelbased_models_spec _).2.2.mpr ⟨hmem, hlen⟩
    rcases hd : detect_pixelbased_models (sm.getD { profile_type_list := [] })
      with e | b
    · simp only [init, hd]
      rfl
    · rw [hd] at herr
      simp [isError] at herr
  · intro hmem
    have hok : detect_pixelbased_models (sm.getD { profile_type_list := [] }) =
        .ok false := (detect_pixelbased_models_spec _).2.1.mpr hmem
    simp only [init, hok]
    exact ⟨_, rfl, rfl⟩
  · intro s hs
    have hdet := (init_ok_fields data_class psf_class lm sm llm ps ec kn mask bl
      kp s hs).2.2.2.2.2.2
    constructor
    · intro hflag
      rw [hflag] at hdet
      exact (detect_pixelbased_models_spec _).1.mp hdet
    · intro hsingle
      have : detect_pixelbased_models (sm.getD { profile_type_list := [] }) =
          .ok true := (detect_pixelbased_models_spec _).1.mpr hsingle
      rw [this] at hdet
      exact (Except.ok.inj hdet).symm

/-- Witness for C1: mixing `SLIT_STARLETS` with a Sersic profile raises, while
a Sersic-only source model constructs with the flag `false`. -/
theorem init_pixelbased_mode_detection_witness :
    isError (init ⟨1, 1, 1, (0, 0), (1, 1), [[0]], none, none⟩
      ⟨"PIXEL", false, none⟩ none
      (some { profile_type_list := ["SLIT_STARLETS", "SERSIC"] })
      none none none none none none none) = true ∧
    (∃ s, init ⟨1, 1, 1, (0, 0), (1, 1), [[0]], none, none⟩
      ⟨"PIXEL", false, none⟩ none
      (some { profile_type_list := ["SERSIC"] })
      none none none none none none none = .ok s ∧ s.pixelbased_bool = false) :=
  ⟨(init_pixelbased_mode_detection _ _ _ _ _ _ _ _ _ _ _).1 (by decide),
   (init_pixelbased_mode_detection _ _ _ _ _ _ _ _ _ _ _).2.1 (by decide)⟩

/-- Claim C9: `update_data` swaps in the new data object and rebinds the
numerics adapter's pixel-grid reference, and nothing else: the likelihood
mask, its flattened index, the flux-scaling factor, the PSF pixel-size
binding, and the pixel-based flag keep the values derived from the data
supplied at construction. -/
theorem update_data_frame (data_class : DataC) (psf_class : PSFC)
    (lm : Option LensC) (sm : Option LightModelC) (llm : Option LightModelC)
    (ps : Option PointSourceC) (ec : Option ExtinctionC)
    (kn : Option KwargsNumerics) (mask : Option (List (List Bool)))
    (bl : Option (List Bool)) (kp : Option KwargsPixelbased)
    (data_class' : DataC) (s : OrchState)
    (h : init data_class psf_class lm sm llm ps ec kn mask bl kp = .ok s) :
    (update_data s data_class').Data = data_class' ∧
    (update_data s data_class').ImageNumerics.pixel_grid = data_class' ∧
    (update_data s data_class').ImageNumerics.psf =
      set_pixel_size psf_class data_class.pixel_width ∧
    (update_data s data_class').likelihood_mask = mask.getD
      (List.replicate data_class.nx (List.replicate data_class.ny true)) ∧
    (update_data s data_class').mask1d = image2array (mask.getD
      (List.replicate data_class.nx (List.replicate data_class.ny true))) ∧
    (update_data s data_class').flux_scaling = data_class.flux_scaling.getD 1 ∧
    (update_data s data_class').PSF.pixel_size = some data_class.pixel_width ∧
    detect_pixelbased_models (sm.getD { profile_type_list := [] }) =
      .ok (update_data s data_class').pixelbased_bool := by
  obtain ⟨hpsf, _, hflux, hnum, hmask, hmask1d, hdet⟩ :=
    init_ok_fields data_class psf_class lm sm llm ps ec kn mask bl kp s h
  refine ⟨rfl, rfl, ?_, ?_, ?_, ?_, ?_, ?_⟩
  · rw [update_data]
    rw [hnum]
  · exact hmask
  · exact hmask1d
  · exact hflux
  · rw [update_data]
    rw [hpsf, set_pixel_size]
  · exact hdet

/-- The construction data for the C9 witness. -/
def d0c : DataC := ⟨1, 1, 2, (0, 0), (1, 1), [[0]], none, none⟩

/-- The replacement data for the C9 witness (different shape and pixel width). -/
def d1c : DataC := ⟨2, 2, 5, (1, 1), (3, 3), [[1, 1], [1, 1]], none, some 7⟩

/-- The state `init` produces from `d0c` in the C9 witness. -/
def sC9 : OrchState where
  PSF := ⟨"PIXEL", false, some 2⟩
  Data := d0c
  flux_scaling := 1
  ImageNumerics := ⟨d0c, ⟨"PIXEL", false, some 2⟩, ⟨none, none, none⟩⟩
  LensModel := ⟨[]⟩
  PointSource := ⟨[], some ⟨[]⟩⟩
  psf_error_map := false
  likelihood_mask := [[true]]
  mask1d := [true]
  SourceModel := ⟨[]⟩
  LensLightModel := ⟨[]⟩
  kwargs_numerics := ⟨none, none, none⟩
  extinction := ⟨[]⟩
  pixelbased_bool := false
  SourceNumerics := none
  PixelSolver := none
  source_mapping := some ⟨⟨[]⟩, ⟨[]⟩⟩
  pb := none
  pb_1d := none
  psf_error_map_bool_list := []

/-- Witness for C9: after `update_data` with `d1c`, the data and pixel-grid
references are `d1c` while the mask, flattened index, flux scaling, PSF pixel
size and mode flag keep their `d0c`-derived values. -/
theorem update_data_frame_witness :
    (update_data sC9 d1c).Data = d1c ∧
    (update_data sC9 d1c).ImageNumerics.pixel_grid = d1c ∧
    (update_data sC9 d1c).ImageNumerics.psf =
      set_pixel_size ⟨"PIXEL", false, none⟩ d0c.pixel_width ∧
    (update_data sC9 d1c).likelihood_mask = (none : Option (List (List Bool))).getD
      (List.replicate d0c.nx (List.replicate d0c.ny true)) ∧
    (update_data sC9 d1c).mask1d = image2array
      ((none : Option (List (List Bool))).getD
        (List.replicate d0c.nx (List.replicate d0c.ny true))) ∧
    (update_data sC9 d1c).flux_scaling = d0c.flux_scaling.getD 1 ∧
    (update_data sC9 d1c).PSF.pixel_size = some d0c.pixel_width ∧
    detect_pixelbased_models
        ((none : Option LightModelC).getD { profile_type_list := [] }) =
      .ok (update_data sC9 d1c).pixelbased_bool :=
  update_data_frame d0c ⟨"PIXEL", false, none⟩ none none none none none none
    none none none d1c sC9 rfl

/-! ## Residual statistics (`reduced_residuals`, `reduced_chi2`)

`np.sqrt` forces this embedding over `ℝ`; images of the data's fixed pixel
shape are `Fin nx → Fin ny → ℝ`, and the data collaborator's noise model
`C_D_model` is an opaque function of the model image. -/

/-- The state `reduced_residuals`/`reduced_chi2` read: the observed data, the
(model-dependent) noise covariance accessor, and the likelihood mask. -/
structure ChiState (nx ny : Nat) where
  data : Fin nx → Fin ny → ℝ
  C_D_model : (Fin nx → Fin ny → ℝ) → Fin nx → Fin ny → ℝ
  likelihood_mask : Fin nx → Fin ny → Bool

/-- `ImageModel.num_data_evaluate`: `int(np.sum(self.likelihood_mask))`. -/
def num_data_evaluate {nx ny : Nat} (s : ChiState nx ny) : ℕ :=
  (Finset.univ.filter fun p : Fin nx × Fin ny => s.likelihood_mask p.1 p.2).card

/-- `ImageModel.reduced_residuals`:
`(model - data) / np.sqrt(C_D + np.abs(error_map)) * mask` (the boolean mask
multiplies as 0/1). -/
noncomputable def reduced_residuals {nx ny : Nat} (s : ChiState nx ny)
    (model error_map : Fin nx → Fin ny → ℝ) (i : Fin nx) (j : Fin ny) : ℝ :=
  (model i j - s.data i j) /
      Real.sqrt (s.C_D_model model i j + |error_map i j|) *
    (if s.likelihood_mask i j then 1 else 0)

/-- `ImageModel.reduced_chi2`: `np.sum(norm_res**2) / self.num_data_evaluate`. -/
noncomputable def reduced_chi2 {nx ny : Nat} (s : ChiState nx ny)
    (model error_map : Fin nx → Fin ny → ℝ) : ℝ :=
  (∑ p : Fin nx × Fin ny, reduced_residuals s model error_map p.1 p.2 ^ 2) /
    (num_data_evaluate s : ℝ)

/-- Claim C8: `reduced_chi2` is the sum over unmasked pixels of the squared
reduced residual `(model - data)/sqrt(C_D_model(model) + |error_map|)`,
divided by the number of `true` mask entries; and it vanishes when the model
equals the data and the error map is zero. -/
theorem reduced_chi2_spec {nx ny : Nat} (s : ChiState nx ny)
    (model error_map : Fin nx → Fin ny → ℝ) :
    (reduced_chi2 s model error_map =
      (∑ p ∈ Finset.univ.filter fun p : Fin nx × Fin ny =>
          s.likelihood_mask p.1 p.2,
        ((model p.1 p.2 - s.data p.1 p.2) /
            Real.sqrt (s.C_D_model model p.1 p.2 + |error_map p.1 p.2|)) ^ 2) /
        (num_data_evaluate s : ℝ)) ∧
    reduced_chi2 s s.data (fun _ _ => 0) = 0 := by
  constructor
  · rw [reduced_chi2, Finset.sum_filter]
    congr 1
    refine Finset.sum_congr rfl fun p _ => ?_
    rw [reduced_residuals]
    by_cases hm : s.likelihood_mask p.1 p.2 <;> simp [hm]
  · simp [reduced_chi2, reduced_residuals]

/-! ## Image composition flag dispatch (`image`)

The three `_add` toggles are tested with Python's `is True` — an identity
comparison with the `True` singleton — so any non-`bool` truthy value (such
as the integer `1`) skips its term.  Python scalars are modelled by an
inductive of booleans and integers; `is True` is equality with the boolean
`True` and truthiness is Python's `bool(...)` coercion. -/

/-- A Python scalar as passed for the `_add` flags. -/
inductive PyVal where
  | pyBool : Bool → PyVal
  | pyInt : Int → PyVal
deriving DecidableEq

/-- Python truthiness (`bool(x)`): a boolean is itself, an integer is truthy
iff nonzero. -/
def truthy : PyVal → Bool
  | .pyBool b => b
  | .pyInt n => n != 0

/-- One-invocation snapshot of the three component terms `image` sums. -/
structure ImageState where
  nx : Nat
  ny : Nat
  /-- `ImageModel.source_surface_brightness(...)` for this call -/
  source_term : List (List ℚ)
  /-- `ImageModel.lens_surface_brightness(...)` for this call -/
  lens_light_term : List (List ℚ)
  /-- `ImageModel.point_source(...)` for this call -/
  point_source_term : List (List ℚ)

/-- `ImageModel.image`: start from `np.zeros(num_pixel_axes)` and `+=` each
term whose `_add` flag `is True` (identity with the `True` singleton). -/
def image (s : ImageState) (source_add lens_light_add point_source_add : PyVal) :
    List (List ℚ) :=
  let model := zeros2d s.nx s.ny
  let model := if source_add = PyVal.pyBool true
    then add2d model s.source_term else model
  let model := if lens_light_add = PyVal.pyBool true
    then add2d model s.lens_light_term else model
  let model := if point_source_add = PyVal.pyBool true
    then add2d model s.point_source_term else model
  model

/-- Claim C10: each term of `image` is included only when its `_add` flag is
the literal boolean `True`; any other flag value (truthy or not) omits the
term, and with all three flags non-`True` the result is the all-zero array —
in particular the integer `1` is truthy yet distinct from the `True` literal. -/
theorem image_add_flags_literal_true (s : ImageState) (f1 f2 f3 : PyVal) :
    (f1 ≠ PyVal.pyBool true →
      image s f1 f2 f3 = image s (PyVal.pyBool false) f2 f3) ∧
    (f2 ≠ PyVal.pyBool true →
      image s f1 f2 f3 = image s f1 (PyVal.pyBool false) f3) ∧
    (f3 ≠ PyVal.pyBool true →
      image s f1 f2 f3 = image s f1 f2 (PyVal.pyBool false)) ∧
    ((f1 ≠ PyVal.pyBool true ∧ f2 ≠ PyVal.pyBool true ∧ f3 ≠ PyVal.pyBool true) →
      image s f1 f2 f3 = zeros2d s.nx s.ny) ∧
    (truthy (PyVal.pyInt 1) = true ∧ PyVal.pyInt 1 ≠ PyVal.pyBool true) := by
  refine ⟨?_, ?_, ?_, ?_, by decide, by decide⟩
  · intro h1
    simp [image, h1]
  · intro h2
    simp [image, h2]
  · intro h3
    simp [image, h3]
  · intro ⟨h1, h2, h3⟩
    simp [image, h1, h2, h3]

/-- A state whose source term is nonzero, for the C10 witness. -/
def imageStateC : ImageState := ⟨1, 1, [[5]], [[0]], [[0]]⟩

/-- Witness for C10: with every flag the truthy integer `1`, `image` is the
all-zero array, although with the literal `True` flags it is not. -/
theorem image_add_flags_literal_true_witness :
    image imageStateC (.pyInt 1) (.pyInt 1) (.pyInt 1) = zeros2d 1 1 ∧
    truthy (.pyInt 1) = true ∧
    image imageStateC (.pyBool true) (.pyBool true) (.pyBool true) ≠ zeros2d 1 1 :=
  ⟨(image_add_flags_literal_true imageStateC _ _ _).2.2.2.1
      ⟨by decide, by decide, by decide⟩,
   by decide,
   by simp [image, imageStateC, add2d, zeros2d]⟩

end ImageModel
